import Mathlib

/-!
Shallow embedding of `src/thumbnail_manager.py` (class `ThumbnailManager`).

Pure data is modelled directly; the filesystem is an association list from
path to byte list; the network, the external `wget` fallback and the PIL
image decode/transform collaborators are oracle functions packaged in a
`World` record.  Python exceptions that escape a method are modelled with
`Except String`, the string naming the Python exception type.
-/

set_option maxRecDepth 100000

namespace ThumbnailManager

/-- Raw bytes, each entry a value in `[0, 256)`. -/
abbrev Bytes := List Nat

/-! ## MD5 (model of `hashlib.md5(url.encode("utf-8")).hexdigest()`) -/

/-- `2 ^ 32`, the modulus of MD5 word arithmetic. -/
def M32 : Nat := 4294967296

/-- Addition of 32-bit words. -/
def add32 (a b : Nat) : Nat := (a + b) % M32

/-- Left rotation of a 32-bit word by `s` bits. -/
def rotl32 (x s : Nat) : Nat := ((x <<< s) % M32) ||| (x >>> (32 - s))

/-- MD5 round function F. -/
def mdF (b c d : Nat) : Nat := (b &&& c) ||| ((b ^^^ 4294967295) &&& d)

/-- MD5 round function G. -/
def mdG (b c d : Nat) : Nat := (d &&& b) ||| ((d ^^^ 4294967295) &&& c)

/-- MD5 round function H. -/
def mdH (b c d : Nat) : Nat := b ^^^ c ^^^ d

/-- MD5 round function I. -/
def mdI (b c d : Nat) : Nat := c ^^^ (b ||| (d ^^^ 4294967295))

/-- The 64 MD5 sine-derived constants. -/
def md5K : List Nat :=
  [0xd76aa478, 0xe8c7b756, 0x242070db, 0xc1bdceee,
   0xf57c0faf, 0x4787c62a, 0xa8304613, 0xfd469501,
   0x698098d8, 0x8b44f7af, 0xffff5bb1, 0x895cd7be,
   0x6b901122, 0xfd987193, 0xa679438e, 0x49b40821,
   0xf61e2562, 0xc040b340, 0x265e5a51, 0xe9b6c7aa,
   0xd62f105d, 0x02441453, 0xd8a1e681, 0xe7d3fbc8,
   0x21e1cde6, 0xc33707d6, 0xf4d50d87, 0x455a14ed,
   0xa9e3e905, 0xfcefa3f8, 0x676f02d9, 0x8d2a4c8a,
   0xfffa3942, 0x8771f681, 0x6d9d6122, 0xfde5380c,
   0xa4beea44, 0x4bdecfa9, 0xf6bb4b60, 0xbebfbc70,
   0x289b7ec6, 0xeaa127fa, 0xd4ef3085, 0x04881d05,
   0xd9d4d039, 0xe6db99e5, 0x1fa27cf8, 0xc4ac5665,
   0xf4292244, 0x432aff97, 0xab9423a7, 0xfc93a039,
   0x655b59c3, 0x8f0ccc92, 0xffeff47d, 0x85845dd1,
   0x6fa87e4f, 0xfe2ce6e0, 0xa3014314, 0x4e0811a1,
   0xf7537e82, 0xbd3af235, 0x2ad7d2bb, 0xeb86d391]

/-- The 64 MD5 per-round left-rotation amounts. -/
def md5S : List Nat :=
  [7, 12, 17, 22, 7, 12, 17, 22, 7, 12, 17, 22, 7, 12, 17, 22,
   5,  9, 14, 20, 5,  9, 14, 20, 5,  9, 14, 20, 5,  9, 14, 20,
   4, 11, 16, 23, 4, 11, 16, 23, 4, 11, 16, 23, 4, 11, 16, 23,
   6, 10, 15, 21, 6, 10, 15, 21, 6, 10, 15, 21, 6, 10, 15, 21]

/-- Little-endian decomposition of a word into `n` bytes. -/
def leBytes : Nat → Nat → List Nat
  | 0, _ => []
  | n + 1, w => w % 256 :: leBytes n (w / 256)

/-- Little-endian 32-bit word from (up to) four bytes. -/
def leWord (bs : List Nat) : Nat :=
  match bs with
  | [a, b, c, d] => a + 256 * b + 65536 * c + 16777216 * d
  | _ => 0

/-- MD5 padding: `0x80`, zeros to 56 mod 64, then the 64-bit bit length. -/
def padMsg (msg : List Nat) : List Nat :=
  let z := (120 - (msg.length + 1) % 64) % 64
  msg ++ [128] ++ List.replicate z 0 ++ leBytes 8 ((msg.length * 8) % 18446744073709551616)

/-- Fuel-driven worker for `chunks64`; the fuel bounds the number of blocks. -/
def chunks64Go : Nat → List Nat → List (List Nat)
  | _, [] => []
  | 0, l => [l]
  | fuel + 1, a :: rest => ((a :: rest).take 64) :: chunks64Go fuel (rest.drop 63)

/-- Split a byte list into 64-byte blocks. -/
def chunks64 (l : List Nat) : List (List Nat) := chunks64Go l.length l

/-- The sixteen little-endian message words of one 64-byte block. -/
def blockWords (block : List Nat) : List Nat :=
  (List.range 16).map (fun j => leWord ((block.drop (4 * j)).take 4))

/-- One of the 64 MD5 rounds, acting on the `(a, b, c, d)` state. -/
def md5Round (M : List Nat) (st : Nat × Nat × Nat × Nat) (i : Nat) : Nat × Nat × Nat × Nat :=
  let (a, b, c, d) := st
  let fg : Nat × Nat :=
    if i < 16 then (mdF b c d, i)
    else if i < 32 then (mdG b c d, (5 * i + 1) % 16)
    else if i < 48 then (mdH b c d, (3 * i + 5) % 16)
    else (mdI b c d, (7 * i) % 16)
  let f := (fg.1 + a + md5K.getD i 0 + M.getD fg.2 0) % M32
  (d, add32 b (rotl32 f (md5S.getD i 0)), b, c)

/-- Process one 64-byte block: 64 rounds, then add into the running state. -/
def md5Block (st : Nat × Nat × Nat × Nat) (block : List Nat) : Nat × Nat × Nat × Nat :=
  let M := blockWords block
  let r := (List.range 64).foldl (md5Round M) st
  (add32 st.1 r.1, add32 st.2.1 r.2.1, add32 st.2.2.1 r.2.2.1, add32 st.2.2.2 r.2.2.2)

/-- The sixteen digest bytes of the MD5 of a byte list. -/
def md5Bytes (msg : List Nat) : List Nat :=
  let st := (chunks64 (padMsg msg)).foldl md5Block (0x67452301, 0xefcdab89, 0x98badcfe, 0x10325476)
  leBytes 4 st.1 ++ leBytes 4 st.2.1 ++ leBytes 4 st.2.2.1 ++ leBytes 4 st.2.2.2

/-- Lowercase hexadecimal digit characters. -/
def hexDigitChar (n : Nat) : Char := "0123456789abcdef".data.getD n 'x'

/-- Two lowercase hex characters of one byte. -/
def byteHex (b : Nat) : List Char := [hexDigitChar (b / 16), hexDigitChar (b % 16)]

/-- UTF-8 encoding of one character (as in `str.encode("utf-8")`). -/
def utf8Encode (c : Char) : List Nat :=
  let n := c.toNat
  if n < 128 then [n]
  else if n < 2048 then [192 + n / 64, 128 + n % 64]
  else if n < 65536 then [224 + n / 4096, 128 + n / 64 % 64, 128 + n % 64]
  else [240 + n / 262144, 128 + n / 4096 % 64, 128 + n / 64 % 64, 128 + n % 64]

/-- UTF-8 bytes of a string. -/
def strBytes (s : String) : List Nat := s.data.flatMap utf8Encode

/-- `hashlib.md5(s.encode("utf-8")).hexdigest()`: 32 lowercase hex characters. -/
def md5Hex (s : String) : String := ⟨(md5Bytes (strBytes s)).flatMap byteHex⟩

/-! ## Strings, paths and Python dict / filesystem primitives -/

/-- `TMP_DIR` of the source module. -/
def TMP_DIR : String := "/tmp/"

/-- `ORIGINALS_DIR` of the source module. -/
def ORIGINALS_DIR : String := "originals"

/-- `THUMBNAILS_DIR` of the source module. -/
def THUMBNAILS_DIR : String := "thumbnails"

/-- `os.path.join` for the non-absolute second components used by the source:
a separator is inserted unless the first component already ends in one. -/
def pathJoin (a b : String) : String :=
  if a.data.getLast? = some '/' then a ++ b else a ++ "/" ++ b

/-- Lookup in a Python dict modelled as an association list. -/
def alookup {β : Type} : List (String × β) → String → Option β
  | [], _ => none
  | (k1, v) :: t, k => if k1 = k then some v else alookup t k

/-- Dict assignment `d[k] = v`: overwrite in place, else append. -/
def ainsert {β : Type} : List (String × β) → String → β → List (String × β)
  | [], k, v => [(k, v)]
  | (k1, v1) :: t, k, v => if k1 = k then (k, v) :: t else (k1, v1) :: ainsert t k v

/-- Dict deletion `del d[k]` (first matching key). -/
def aerase {β : Type} : List (String × β) → String → List (String × β)
  | [], _ => []
  | (k1, v1) :: t, k => if k1 = k then t else (k1, v1) :: aerase t k

/-- Python `str.split(sep)` on a character list (single-character separator). -/
def pySplit (sep : Char) : List Char → List (List Char)
  | [] => [[]]
  | c :: rest =>
    if c = sep then [] :: pySplit sep rest
    else
      match pySplit sep rest with
      | h :: t => (c :: h) :: t
      | [] => [[c]]

/-- `filename.split('.')` as used on cache file names. -/
def splitName (s : String) : List String := (pySplit '.' s.data).map fun l => ⟨l⟩

/-- The 3-tuple unpacking `(hash_id, size, ext) = filename.split('.')`;
`none` models the `ValueError` of a mismatched component count. -/
def parse3 (s : String) : Option (String × String × String) :=
  match splitName s with
  | [a, b, c] => some (a, b, c)
  | _ => none

/-- The 2-tuple unpacking `(hash_id, ext) = filename.split('.')`. -/
def parse2 (s : String) : Option (String × String) :=
  match splitName s with
  | [a, b] => some (a, b)
  | _ => none

/-- Python `str.lower()`: lower-case each character. -/
def strToLower (s : String) : String := ⟨s.data.map Char.toLower⟩

/-- The filesystem: an association list from absolute path to file bytes. -/
abbrev FS := List (String × Bytes)

/-- `open(p, 'wb')` followed by a full write (creates or truncates). -/
def fsWrite (fs : FS) (p : String) (b : Bytes) : FS := ainsert fs p b

/-- `os.remove(p)`: `none` models the `FileNotFoundError` for a missing path. -/
def fsRemoveE (fs : FS) (p : String) : Option FS :=
  if (alookup fs p).isSome then some (aerase fs p) else none

/-- `os.rename(old, new)`: `none` models the error for a missing source. -/
def fsRenameE (fs : FS) (old new : String) : Option FS :=
  match alookup fs old with
  | some b => some (ainsert (aerase fs old) new b)
  | none => none

/-! ## External collaborators -/

/-- A decoded image as PIL exposes it: `format`, and `size = (width, height)`. -/
structure Img where
  format : String
  width : Nat
  height : Nat
deriving DecidableEq

/-- Outcome of `urllib.request.urlopen` for a URL. -/
inductive FetchOutcome where
  | success (data : Bytes)
  | httpError (code : Nat)
  | timeout
  | valueError
  | urlError
deriving DecidableEq

/-- The oracles for the network, the `wget` fallback and the PIL collaborator. -/
structure World where
  net : String → FetchOutcome
  wget : String → Option Bytes
  decode : Bytes → Option Img
  transform : Bytes → Bytes

/-- Decidable equality for `Except`, needed to evaluate method results. -/
instance {ε α : Type} [DecidableEq ε] [DecidableEq α] : DecidableEq (Except ε α) :=
  fun a b =>
    match a, b with
    | .ok x, .ok y =>
      if h : x = y then isTrue (by rw [h]) else isFalse (by intro hh; cases hh; exact h rfl)
    | .error x, .error y =>
      if h : x = y then isTrue (by rw [h]) else isFalse (by intro hh; cases hh; exact h rfl)
    | .ok _, .error _ => isFalse (by intro hh; cases hh)
    | .error _, .ok _ => isFalse (by intro hh; cases hh)

/-- Result of an effectful method: returned value (or escaped exception),
the filesystem afterwards, and how many `urlopen` / `wget` invocations ran. -/
structure GenRes where
  ret : Except String (Option String)
  fs : FS
  urlopens : Nat
  wgets : Nat
deriving DecidableEq

/-! ## The `ThumbnailManager` state and `__init__` -/

/-- The fields of a constructed `ThumbnailManager` object. -/
structure TM where
  thumbnail_size : Nat × Nat
  min_image_size : Nat × Nat
  save_original : Bool
  fill_color : String
  thumbnails_dir : Option String
  originals_dir : Option String
  file_names : List (String × String)
  original_file_names : List (String × String)
deriving DecidableEq

/-- One step of the `__init__` thumbnails scan: a parseable `key.size.format`
name is indexed under its key, anything else is skipped with a warning. -/
def indexStep3 (m : List (String × String)) (fn : String) : List (String × String) :=
  match parse3 fn with
  | some (h, _, _) => ainsert m h fn
  | none => m

/-- One step of the `__init__` originals scan (`key.format` names). -/
def indexStep2 (m : List (String × String)) (fn : String) : List (String × String) :=
  match parse2 fn with
  | some (h, _) => ainsert m h fn
  | none => m

/-- The `__init__` scan of the thumbnails directory. -/
def loadIndex3 (listing : List String) : List (String × String) :=
  listing.foldl indexStep3 []

/-- The `__init__` scan of the originals directory. -/
def loadIndex2 (listing : List String) : List (String × String) :=
  listing.foldl indexStep2 []

/-- `ThumbnailManager.__init__`.  `listThumb` and `listOrig` are the
`os.listdir` contents of the two cache directories, and `mkdirOk` tells
whether `os.makedirs` succeeds; on `mkdirOk = false` with a cache directory
configured, `__init__` raises (modelled as `.error`). -/
def initTM (thumbnail_size min_image_size : Nat × Nat) (cache_dir : Option String)
    (save_original : Bool) (fill_color : String)
    (listThumb listOrig : List String) (mkdirOk : Bool) : Except String TM :=
  let tdir := cache_dir.map fun cd => pathJoin cd THUMBNAILS_DIR
  let odir := cache_dir.map fun cd => pathJoin cd ORIGINALS_DIR
  if tdir.isSome && !mkdirOk then
    .error "Exception: Error while creating cache directory"
  else
    .ok
      { thumbnail_size := thumbnail_size
        min_image_size := min_image_size
        save_original := save_original
        fill_color := fill_color
        thumbnails_dir := tdir
        originals_dir := odir
        file_names := if tdir.isSome then loadIndex3 listThumb else []
        original_file_names :=
          if save_original && odir.isSome then loadIndex2 listOrig else [] }

/-! ## Methods -/

/-- `ThumbnailManager.has_thumbnail`: the index hit path joins
`self.thumbnails_dir` (a `TypeError` escapes if that is `None`). -/
def has_thumbnail (tm : TM) (image_url : String) : Except String (Option String) :=
  match alookup tm.file_names (md5Hex image_url) with
  | some fn =>
    match tm.thumbnails_dir with
    | some d => .ok (some (pathJoin d fn))
    | none => .error "TypeError"
  | none => .ok none

/-- `ThumbnailManager.has_original`. -/
def has_original (tm : TM) (image_url : String) : Except String (Option String) :=
  match alookup tm.original_file_names (md5Hex image_url) with
  | some fn =>
    match tm.originals_dir with
    | some d => .ok (some (pathJoin d fn))
    | none => .error "TypeError"
  | none => .ok none

/-- The tail of `fetch_original_image`: save the downloaded bytes to the
originals directory (retention on) or to a `/tmp/` scratch file.  With
retention on but no cache directory, `os.path.join(None, ...)` raises
`TypeError`, which escapes the method. -/
def saveImageData (tm : TM) (fs : FS) (hash_id : String) (data : Bytes)
    (u g : Nat) : GenRes :=
  if tm.save_original then
    match tm.originals_dir with
    | none => { ret := .error "TypeError", fs := fs, urlopens := u, wgets := g }
    | some od =>
      let f := pathJoin od hash_id
      { ret := .ok (some f), fs := fsWrite fs f data, urlopens := u, wgets := g }
  else
    let f := pathJoin TMP_DIR ("tmp_" ++ hash_id)
    { ret := .ok (some f), fs := fsWrite fs f data, urlopens := u, wgets := g }

/-- `ThumbnailManager.fetch_original_image`: one `urlopen`; on HTTP 403 one
`wget` fallback (whose failure is caught and yields `None`); timeouts,
`ValueError` and `URLError` yield `None`; other HTTP codes yield `None`. -/
def fetch_original_image (tm : TM) (w : World) (fs : FS) (image_url : String) : GenRes :=
  let hash_id := md5Hex image_url
  match w.net image_url with
  | .timeout => { ret := .ok none, fs := fs, urlopens := 1, wgets := 0 }
  | .valueError => { ret := .ok none, fs := fs, urlopens := 1, wgets := 0 }
  | .urlError => { ret := .ok none, fs := fs, urlopens := 1, wgets := 0 }
  | .httpError code =>
    if code = 403 then
      match w.wget image_url with
      | none => { ret := .ok none, fs := fs, urlopens := 1, wgets := 1 }
      | some data =>
        saveImageData tm (fsWrite fs (pathJoin TMP_DIR hash_id) data) hash_id data 1 1
    else { ret := .ok none, fs := fs, urlopens := 1, wgets := 0 }
  | .success data => saveImageData tm fs hash_id data 1 0

/-- `size = 'x'.join(map(str, self.thumbnail_size))`. -/
def sizeStr (tm : TM) : String :=
  Nat.repr tm.thumbnail_size.1 ++ "x" ++ Nat.repr tm.thumbnail_size.2

/-- `generate_thumbnail` from line 102 of the source on: open the image file,
gate on the minimum size, pad-and-save the thumbnail, and reconcile the
original according to the retention policy.  The in-memory index is not
touched (the source performs no `file_names` update here). -/
def generateFrom (tm : TM) (w : World) (fs : FS) (image_url : String)
    (original_exists : Bool) (image_file : String) (u g : Nat) : GenRes :=
  let hash_id := md5Hex image_url
  let size := sizeStr tm
  match alookup fs image_file with
  | none => { ret := .ok none, fs := fs, urlopens := u, wgets := g }
  | some data =>
    match w.decode data with
    | none => { ret := .ok none, fs := fs, urlopens := u, wgets := g }
    | some img =>
      let image_format := strToLower img.format
      if img.width < tm.min_image_size.1 ∨ img.height < tm.min_image_size.2 then
        if tm.save_original = false then
          match fsRemoveE fs image_file with
          | some fs2 => { ret := .ok none, fs := fs2, urlopens := u, wgets := g }
          | none => { ret := .ok none, fs := fs, urlopens := u, wgets := g }
        else if original_exists = false then
          match fsRenameE fs image_file (image_file ++ "." ++ image_format) with
          | some fs2 => { ret := .ok none, fs := fs2, urlopens := u, wgets := g }
          | none => { ret := .ok none, fs := fs, urlopens := u, wgets := g }
        else { ret := .ok none, fs := fs, urlopens := u, wgets := g }
      else
        let name := hash_id ++ "." ++ size ++ "." ++ image_format
        match tm.thumbnails_dir with
        | none =>
          let tfile := pathJoin TMP_DIR name
          { ret := .ok (some tfile), fs := fsWrite fs tfile (w.transform data),
            urlopens := u, wgets := g }
        | some tdir =>
          let tpath := pathJoin tdir name
          let fs2 := fsWrite fs tpath (w.transform data)
          if tm.save_original = false then
            match fsRemoveE fs2 image_file with
            | some fs3 =>
              { ret := .ok (some tpath), fs := fs3, urlopens := u, wgets := g }
            | none => { ret := .ok none, fs := fs2, urlopens := u, wgets := g }
          else if original_exists = false then
            match fsRenameE fs2 image_file (image_file ++ "." ++ image_format) with
            | some fs3 =>
              { ret := .ok (some tpath), fs := fs3, urlopens := u, wgets := g }
            | none => { ret := .ok none, fs := fs2, urlopens := u, wgets := g }
          else { ret := .ok (some tpath), fs := fs2, urlopens := u, wgets := g }

/-- `ThumbnailManager.generate_thumbnail`. -/
def generate_thumbnail (tm : TM) (w : World) (fs : FS) (image_url : String) : GenRes :=
  match has_thumbnail tm image_url with
  | .error e => { ret := .error e, fs := fs, urlopens := 0, wgets := 0 }
  | .ok (some path) => { ret := .ok (some path), fs := fs, urlopens := 0, wgets := 0 }
  | .ok none =>
    match has_original tm image_url with
    | .error e => { ret := .error e, fs := fs, urlopens := 0, wgets := 0 }
    | .ok (some image_file) => generateFrom tm w fs image_url true image_file 0 0
    | .ok none =>
      let fr := fetch_original_image tm w fs image_url
      match fr.ret with
      | .error e => { ret := .error e, fs := fr.fs, urlopens := fr.urlopens, wgets := fr.wgets }
      | .ok none => { ret := .ok none, fs := fr.fs, urlopens := fr.urlopens, wgets := fr.wgets }
      | .ok (some image_file) =>
        generateFrom tm w fr.fs image_url false image_file fr.urlopens fr.wgets

/-- `ThumbnailManager.remove_thumbnail`.  Every exception inside the method is
caught, so it returns the (possibly unchanged) object state.  Note the
rebinding of `hash_id` by the tuple unpacking before `del`. -/
def remove_thumbnail (tm : TM) (image_url : String) (keep_orig : Bool) : TM :=
  let hash_id := md5Hex image_url
  match alookup tm.file_names hash_id with
  | none => tm
  | some fn =>
    match tm.thumbnails_dir with
    | none => tm
    | some _ =>
      if keep_orig then { tm with file_names := aerase tm.file_names hash_id }
      else
        match parse3 fn with
        | none => tm
        | some (h2, _, _) =>
          match tm.originals_dir with
          | none => tm
          | some _ =>
            if (alookup tm.file_names h2).isSome then
              { tm with file_names := aerase tm.file_names h2 }
            else tm

/-- `ThumbnailManager.get_original_image_file_by_hash_id`: an index miss is a
`KeyError` (uncaught); the stored name is unpacked (a `ValueError` escapes on
a bad name) and the original path is probed with `os.path.exists`. -/
def get_original_image_file_by_hash_id (tm : TM) (fs : FS) (hash_id : String) :
    Except String (Option String) :=
  match alookup tm.file_names hash_id with
  | none => .error "KeyError"
  | some fn =>
    match parse3 fn with
    | none => .error "ValueError"
    | some (h2, _, ext) =>
      match tm.originals_dir with
      | none => .error "TypeError"
      | some od =>
        let orig := pathJoin od (h2 ++ "." ++ ext)
        if (alookup fs orig).isSome then .ok (some orig) else .ok none

/-- `ThumbnailManager.get_original_image_file`. -/
def get_original_image_file (tm : TM) (fs : FS) (image_url : String) :
    Except String (Option String) :=
  get_original_image_file_by_hash_id tm fs (md5Hex image_url)

/-! ## Derived predicates and concrete fixtures -/

/-- A string without the `'.'` file-name separator. -/
def dotFree (s : String) : Prop := ∀ c ∈ s.data, c ≠ '.'

/-- Instance so `dotFree` can be checked by evaluation. -/
instance (s : String) : Decidable (dotFree s) := by
  unfold dotFree; infer_instance

/-- The `urlopen` outcomes that fail without triggering the `wget` fallback. -/
def nonFallbackFailure : FetchOutcome → Bool
  | .httpError c => c != 403
  | .timeout => true
  | .valueError => true
  | .urlError => true
  | .success _ => false

/-- A network/PIL world where every URL serves a large 600x600 JPEG. -/
def wOk : World :=
  { net := fun _ => .success [7]
    wget := fun _ => none
    decode := fun _ => some { format := "JPEG", width := 600, height := 600 }
    transform := fun _ => [9] }

/-- A world where every URL serves a tiny 50x50 JPEG. -/
def wSmall : World :=
  { wOk with decode := fun _ => some { format := "JPEG", width := 50, height := 50 } }

/-- A world where the server answers HTTP 403 and `wget` succeeds. -/
def w403 : World := { wOk with net := fun _ => .httpError 403, wget := fun _ => some [5] }

/-- A world where the server answers HTTP 404. -/
def w404 : World := { wOk with net := fun _ => .httpError 404 }

/-- A freshly constructed manager over the empty cache directory `/c`,
without original retention. -/
def tmFresh : TM :=
  { thumbnail_size := (400, 400)
    min_image_size := (0, 0)
    save_original := false
    fill_color := "#ffffff"
    thumbnails_dir := some "/c/thumbnails"
    originals_dir := some "/c/originals"
    file_names := []
    original_file_names := [] }

/-- A retention-enabled manager whose startup scan found one thumbnail and
one original for the key of URL `"u"`. -/
def tmC2 : TM :=
  { tmFresh with
    save_original := true
    file_names :=
      [("7b774effe4a349c6dd82ad4f4f21d34c", "7b774effe4a349c6dd82ad4f4f21d34c.400x400.jpeg")]
    original_file_names :=
      [("7b774effe4a349c6dd82ad4f4f21d34c", "7b774effe4a349c6dd82ad4f4f21d34c.jpeg")] }

/-- A fresh manager with a 100x100 minimum viable image size. -/
def tmMin : TM := { tmFresh with min_image_size := (100, 100) }

/-- A retention-enabled variant of `tmMin`. -/
def tmMinSave : TM := { tmMin with save_original := true }

/-- A manager constructed without a cache directory. -/
def tmNoCache : TM := { tmFresh with thumbnails_dir := none, originals_dir := none }

/-- A manager constructed without a cache directory but with retention on. -/
def tmNoCacheSave : TM := { tmNoCache with save_original := true }

/-! ## Helper lemmas -/

theorem length_leBytes (n w : Nat) : (leBytes n w).length = n := by
  induction n generalizing w with
  | zero => rfl
  | succ n ih => simp [leBytes, ih]

theorem length_flatMap_byteHex (bs : List Nat) : (bs.flatMap byteHex).length = 2 * bs.length := by
  induction bs with
  | nil => rfl
  | cons b t ih => simp [List.flatMap_cons, byteHex, ih]; omega

theorem length_md5Bytes (msg : List Nat) : (md5Bytes msg).length = 16 := by
  simp [md5Bytes, length_leBytes]

theorem md5Hex_length (s : String) : (md5Hex s).length = 32 := by
  show (String.mk ((md5Bytes (strBytes s)).flatMap byteHex)).length = 32
  rw [String.length_mk, length_flatMap_byteHex, length_md5Bytes]

theorem mem_leBytes_lt (n w : Nat) : ∀ b ∈ leBytes n w, b < 256 := by
  induction n generalizing w with
  | zero => simp [leBytes]
  | succ n ih =>
    intro b hb
    rcases List.mem_cons.mp hb with h | h
    · omega
    · exact ih _ b h

theorem mem_md5Bytes_lt (msg : List Nat) : ∀ b ∈ md5Bytes msg, b < 256 := by
  intro b hb
  unfold md5Bytes at hb
  simp only [List.mem_append] at hb
  rcases hb with ((h | h) | h) | h <;> exact mem_leBytes_lt _ _ b h

theorem hexDigitChar_mem (n : Nat) (h : n < 16) : hexDigitChar n ∈ "0123456789abcdef".data := by
  interval_cases n <;> decide

theorem hexDigitChar_ne_dot (n : Nat) : hexDigitChar n ≠ '.' := by
  by_cases h : n < 16
  · intro hc
    have := hexDigitChar_mem n h
    rw [hc] at this
    revert this
    decide
  · unfold hexDigitChar
    rw [List.getD_eq_default]
    · decide
    · have hl : ("0123456789abcdef".data).length = 16 := by decide
      omega

theorem md5Hex_mem_hex (s : String) : ∀ c ∈ (md5Hex s).data, c ∈ "0123456789abcdef".data := by
  intro c hc
  have hdata : (md5Hex s).data = (md5Bytes (strBytes s)).flatMap byteHex := rfl
  rw [hdata, List.mem_flatMap] at hc
  obtain ⟨b, hb, hcb⟩ := hc
  have hblt : b < 256 := mem_md5Bytes_lt _ b hb
  rcases List.mem_cons.mp hcb with h | h
  · exact h ▸ hexDigitChar_mem _ (by omega)
  · rcases List.mem_cons.mp h with h2 | h2
    · exact h2 ▸ hexDigitChar_mem _ (by omega)
    · cases h2

theorem md5Hex_dotFree (s : String) : dotFree (md5Hex s) := by
  intro c hc he
  have := md5Hex_mem_hex s c hc
  rw [he] at this
  revert this
  decide

theorem pySplit_of_sepFree (sep : Char) (l : List Char) (h : ∀ c ∈ l, c ≠ sep) :
    pySplit sep l = [l] := by
  induction l with
  | nil => rfl
  | cons c t ih =>
    have hc : c ≠ sep := h c (by simp)
    have ht := ih fun x hx => h x (by simp [hx])
    simp [pySplit, hc, ht]

theorem pySplit_append_sep (sep : Char) (a rest : List Char) (h : ∀ c ∈ a, c ≠ sep) :
    pySplit sep (a ++ sep :: rest) = a :: pySplit sep rest := by
  induction a with
  | nil => simp [pySplit]
  | cons c t ih =>
    have hc : c ≠ sep := h c (by simp)
    have ht := ih fun x hx => h x (by simp [hx])
    simp [pySplit, hc, ht]

theorem splitName_cat3 (a b c : String) (ha : dotFree a) (hb : dotFree b) (hc : dotFree c) :
    splitName (a ++ "." ++ b ++ "." ++ c) = [a, b, c] := by
  have hdot : ("." : String).data = ['.'] := rfl
  have hdata : (a ++ "." ++ b ++ "." ++ c).data = a.data ++ '.' :: (b.data ++ '.' :: c.data) := by
    simp [String.data_append, hdot]
  unfold splitName
  rw [hdata, pySplit_append_sep _ _ _ ha, pySplit_append_sep _ _ _ hb, pySplit_of_sepFree _ _ hc]
  rfl

theorem parse3_cat3 (a b c : String) (ha : dotFree a) (hb : dotFree b) (hc : dotFree c) :
    parse3 (a ++ "." ++ b ++ "." ++ c) = some (a, b, c) := by
  unfold parse3
  rw [splitName_cat3 a b c ha hb hc]

theorem alookup_ainsert_self {β : Type} (d : List (String × β)) (k : String) (v : β) :
    alookup (ainsert d k v) k = some v := by
  induction d with
  | nil => simp [ainsert, alookup]
  | cons hd t ih =>
    obtain ⟨k1, v1⟩ := hd
    by_cases h : k1 = k
    · simp [ainsert, h, alookup]
    · simp [ainsert, h, alookup, ih]

theorem alookup_eq_none {β : Type} (d : List (String × β)) (k : String)
    (h : k ∉ d.map Prod.fst) : alookup d k = none := by
  induction d with
  | nil => rfl
  | cons hd t ih =>
    obtain ⟨k1, v1⟩ := hd
    rw [List.map_cons, List.mem_cons, not_or] at h
    obtain ⟨h1, h2⟩ := h
    rw [alookup, if_neg fun hh => h1 hh.symm]
    exact ih h2

theorem alookup_aerase_self {β : Type} (d : List (String × β)) (k : String)
    (h : (d.map Prod.fst).Nodup) : alookup (aerase d k) k = none := by
  induction d with
  | nil => rfl
  | cons hd t ih =>
    obtain ⟨k1, v1⟩ := hd
    rw [List.map_cons, List.nodup_cons] at h
    obtain ⟨h1, h2⟩ := h
    by_cases hk : k1 = k
    · subst hk
      rw [aerase, if_pos rfl]
      exact alookup_eq_none t k1 h1
    · rw [aerase, if_neg hk, alookup, if_neg hk]
      exact ih h2

theorem foldl_indexStep3_filter (l : List String) (acc : List (String × String)) :
    l.foldl indexStep3 acc = (l.filter fun f => (parse3 f).isSome).foldl indexStep3 acc := by
  induction l generalizing acc with
  | nil => rfl
  | cons f t ih =>
    cases hp : parse3 f with
    | none => simp [List.filter_cons, hp, indexStep3, ih]
    | some v => simp [List.filter_cons, hp, indexStep3, ih]

theorem foldl_indexStep2_filter (l : List String) (acc : List (String × String)) :
    l.foldl indexStep2 acc = (l.filter fun f => (parse2 f).isSome).foldl indexStep2 acc := by
  induction l generalizing acc with
  | nil => rfl
  | cons f t ih =>
    cases hp : parse2 f with
    | none => simp [List.filter_cons, hp, indexStep2, ih]
    | some v => simp [List.filter_cons, hp, indexStep2, ih]

theorem pathJoin_append (a b c : String) : pathJoin a b ++ c = pathJoin a (b ++ c) := by
  unfold pathJoin
  split <;> apply String.ext <;> simp [String.data_append, List.append_assoc]

theorem dotFree_append (a b : String) (ha : dotFree a) (hb : dotFree b) : dotFree (a ++ b) := by
  intro c hc
  rw [String.data_append, List.mem_append] at hc
  rcases hc with h | h
  · exact ha c h
  · exact hb c h

theorem ne_of_dotFree_mem (a b : String) (h1 : dotFree a) (h2 : '.' ∈ b.data) : a ≠ b :=
  fun h => h1 '.' (h ▸ h2) rfl

theorem saveImageData_counts (tm : TM) (fs : FS) (hid : String) (data : Bytes) (u g : Nat) :
    (saveImageData tm fs hid data u g).urlopens = u
    ∧ (saveImageData tm fs hid data u g).wgets = g := by
  cases hs : tm.save_original
  · simp [saveImageData, hs]
  · cases ho : tm.originals_dir <;> simp [saveImageData, hs, ho]

theorem alookup_ainsert_ne {β : Type} (d : List (String × β)) (k k2 : String) (v : β)
    (h : k ≠ k2) : alookup (ainsert d k v) k2 = alookup d k2 := by
  induction d with
  | nil => simp [ainsert, alookup, h]
  | cons hd t ih =>
    obtain ⟨k1, v1⟩ := hd
    by_cases hk : k1 = k
    · subst hk
      simp [ainsert, alookup, h]
    · by_cases hk2 : k1 = k2 <;> simp [ainsert, alookup, hk, hk2, ih, Ne.symm h]

theorem pathJoin_tmp (x : String) : pathJoin TMP_DIR x = "/tmp/" ++ x := by
  have hc : (("/tmp/" : String).data.getLast? = some '/') := by decide
  unfold pathJoin TMP_DIR
  rw [if_pos hc]

theorem mem_dot_pathJoin (a b : String) (h : '.' ∈ b.data) : '.' ∈ (pathJoin a b).data := by
  unfold pathJoin
  split <;> simp [String.data_append, List.mem_append, h]

theorem mem_dot_cat3 (a b c : String) : '.' ∈ (a ++ "." ++ b ++ "." ++ c).data := by
  have h1 : '.' ∈ ((a ++ ".") : String).data := by
    rw [String.data_append]
    exact List.mem_append_right _ (by decide)
  have h2 : '.' ∈ ((a ++ "." ++ b) : String).data := by
    rw [String.data_append]
    exact List.mem_append_left _ h1
  have h3 : '.' ∈ ((a ++ "." ++ b ++ ".") : String).data := by
    rw [String.data_append]
    exact List.mem_append_left _ h2
  rw [String.data_append]
  exact List.mem_append_left _ h3

theorem fetch_success_noRetain (tm : TM) (w : World) (fs : FS) (image_url : String)
    (data : Bytes) (h5 : w.net image_url = .success data) (hs : tm.save_original = false) :
    fetch_original_image tm w fs image_url
      = { ret := .ok (some (pathJoin TMP_DIR ("tmp_" ++ md5Hex image_url)))
          fs := ainsert fs (pathJoin TMP_DIR ("tmp_" ++ md5Hex image_url)) data
          urlopens := 1, wgets := 0 } := by
  simp [fetch_original_image, h5, saveImageData, hs, fsWrite]

theorem fetch_success_retain (tm : TM) (w : World) (fs : FS) (image_url od : String)
    (data : Bytes) (h5 : w.net image_url = .success data) (hs : tm.save_original = true)
    (hod : tm.originals_dir = some od) :
    fetch_original_image tm w fs image_url
      = { ret := .ok (some (pathJoin od (md5Hex image_url)))
          fs := ainsert fs (pathJoin od (md5Hex image_url)) data
          urlopens := 1, wgets := 0 } := by
  simp [fetch_original_image, h5, saveImageData, hs, hod, fsWrite]

theorem generateFrom_small_del (tm : TM) (w : World) (fs : FS) (image_url f : String)
    (data : Bytes) (img : Img) (u g : Nat)
    (hf : alookup fs f = some data) (h6 : w.decode data = some img)
    (h7 : img.width < tm.min_image_size.1 ∨ img.height < tm.min_image_size.2)
    (hs : tm.save_original = false) :
    generateFrom tm w fs image_url false f u g
      = { ret := .ok none, fs := aerase fs f, urlopens := u, wgets := g } := by
  simp only [generateFrom, hf, h6, hs]
  rw [if_pos h7]
  simp [fsRemoveE, hf]

theorem generateFrom_small_rename (tm : TM) (w : World) (fs : FS) (image_url f : String)
    (data : Bytes) (img : Img) (u g : Nat)
    (hf : alookup fs f = some data) (h6 : w.decode data = some img)
    (h7 : img.width < tm.min_image_size.1 ∨ img.height < tm.min_image_size.2)
    (hs : tm.save_original = true) :
    generateFrom tm w fs image_url false f u g
      = { ret := .ok none
          fs := ainsert (aerase fs f) (f ++ "." ++ strToLower img.format) data
          urlopens := u, wgets := g } := by
  simp only [generateFrom, hf, h6, hs]
  rw [if_pos h7]
  simp [fsRenameE, hf]

theorem generateFrom_ok_nocache (tm : TM) (w : World) (fs : FS) (image_url f : String)
    (data : Bytes) (img : Img) (u g : Nat)
    (hf : alookup fs f = some data) (h6 : w.decode data = some img)
    (h7 : ¬(img.width < tm.min_image_size.1 ∨ img.height < tm.min_image_size.2))
    (htd : tm.thumbnails_dir = none) :
    generateFrom tm w fs image_url false f u g
      = { ret := .ok (some (pathJoin TMP_DIR
            (md5Hex image_url ++ "." ++ sizeStr tm ++ "." ++ strToLower img.format)))
          fs := ainsert fs (pathJoin TMP_DIR
            (md5Hex image_url ++ "." ++ sizeStr tm ++ "." ++ strToLower img.format))
            (w.transform data)
          urlopens := u, wgets := g } := by
  simp only [generateFrom, hf, h6, htd]
  rw [if_neg h7]
  simp [fsWrite]

theorem generateFrom_ok_cache (tm : TM) (w : World) (fs : FS) (image_url f td : String)
    (data : Bytes) (img : Img) (u g : Nat)
    (hf : alookup fs f = some data) (h6 : w.decode data = some img)
    (h7 : ¬(img.width < tm.min_image_size.1 ∨ img.height < tm.min_image_size.2))
    (hs : tm.save_original = false)
    (htd : tm.thumbnails_dir = some td)
    (hne : pathJoin td (md5Hex image_url ++ "." ++ sizeStr tm ++ "." ++ strToLower img.format)
      ≠ f) :
    generateFrom tm w fs image_url false f u g
      = { ret := .ok (some (pathJoin td
            (md5Hex image_url ++ "." ++ sizeStr tm ++ "." ++ strToLower img.format)))
          fs := aerase (ainsert fs (pathJoin td
            (md5Hex image_url ++ "." ++ sizeStr tm ++ "." ++ strToLower img.format))
            (w.transform data)) f
          urlopens := u, wgets := g } := by
  have hl := alookup_ainsert_ne fs
    (pathJoin td (md5Hex image_url ++ "." ++ sizeStr tm ++ "." ++ strToLower img.format))
    f (w.transform data) hne
  simp only [generateFrom, hf, h6, hs, htd]
  rw [if_neg h7]
  simp [fsRemoveE, fsWrite, hl, hf]

/-! ## Claim theorems -/

/-- C1: the claim says a successful `generate_thumbnail` records the new
thumbnail in the in-memory index, making `has_thumbnail` return the path and
a second call fetch-free.  The source never updates `file_names` in
`generate_thumbnail`: at the concrete failing input the first call succeeds
and writes the file, yet `has_thumbnail` still answers `none` and the second
call performs another network fetch (`urlopens = 1`). -/
theorem generate_thumbnail_does_not_update_index :
    initTM (400, 400) (0, 0) (some "/c") false "#ffffff" [] [] true = .ok tmFresh
    ∧ (generate_thumbnail tmFresh wOk [] "u").ret
        = .ok (some "/c/thumbnails/7b774effe4a349c6dd82ad4f4f21d34c.400x400.jpeg")
    ∧ (generate_thumbnail tmFresh wOk [] "u").urlopens = 1
    ∧ has_thumbnail tmFresh "u" = .ok none
    ∧ (generate_thumbnail tmFresh wOk (generate_thumbnail tmFresh wOk [] "u").fs "u").ret
        = (generate_thumbnail tmFresh wOk [] "u").ret
    ∧ (generate_thumbnail tmFresh wOk (generate_thumbnail tmFresh wOk [] "u").fs "u").urlopens
        = 1 := by
  decide

/-- C2 (counterexample): with a thumbnail entry and an original entry both
present for the key of `"u"`, `remove_thumbnail("u", keep_orig=False)` makes
`has_thumbnail` answer `none` but `has_original` still returns the original
path, contradicting the claim that it becomes false as well. -/
theorem remove_thumbnail_keeps_original_index_cex :
    initTM (400, 400) (0, 0) (some "/c") true "#ffffff"
        ["7b774effe4a349c6dd82ad4f4f21d34c.400x400.jpeg"]
        ["7b774effe4a349c6dd82ad4f4f21d34c.jpeg"] true = .ok tmC2
    ∧ md5Hex "u" = "7b774effe4a349c6dd82ad4f4f21d34c"
    ∧ has_thumbnail (remove_thumbnail tmC2 "u" false) "u" = .ok none
    ∧ has_original tmC2 "u"
        = .ok (some "/c/originals/7b774effe4a349c6dd82ad4f4f21d34c.jpeg")
    ∧ has_original (remove_thumbnail tmC2 "u" false) "u"
        = .ok (some "/c/originals/7b774effe4a349c6dd82ad4f4f21d34c.jpeg") := by
  decide

/-- C6: `remove_thumbnail` for a URL whose key is not in the thumbnail index
raises nothing and returns the object state entirely unchanged. -/
theorem remove_thumbnail_unknown_noop (tm : TM) (image_url : String) (keep_orig : Bool)
    (h : alookup tm.file_names (md5Hex image_url) = none) :
    remove_thumbnail tm image_url keep_orig = tm := by
  unfold remove_thumbnail
  simp [h]

/-- Witness for C6 at a fresh manager and an uncached URL. -/
theorem remove_thumbnail_unknown_noop_witness :
    alookup tmFresh.file_names (md5Hex "zzz") = none
    ∧ remove_thumbnail tmFresh "zzz" false = tmFresh :=
  ⟨rfl, remove_thumbnail_unknown_noop tmFresh "zzz" false rfl⟩

/-- C9: the URL-to-key digest is a deterministic pure function of the URL
bytes (no salt or randomization) producing a fixed-length 32-character
identifier over the hex alphabet. -/
theorem digest_deterministic_fixed_length (u v : String) :
    (md5Hex u).length = 32
    ∧ (∀ c ∈ (md5Hex u).data, c ∈ "0123456789abcdef".data)
    ∧ (strBytes u = strBytes v → md5Hex u = md5Hex v) := by
  refine ⟨md5Hex_length u, md5Hex_mem_hex u, fun h => ?_⟩
  unfold md5Hex
  rw [h]

/-- Witness for C9 at the URL `"a"`. -/
theorem digest_deterministic_fixed_length_witness :
    (md5Hex "a").length = 32 ∧ md5Hex "a" = md5Hex "a" :=
  ⟨(digest_deterministic_fixed_length "a" "a").1,
   (digest_deterministic_fixed_length "a" "a").2.2 rfl⟩

/-- C10: `get_original_image_file_by_hash_id` raises `KeyError` for a key
missing from the thumbnail index (and so does `get_original_image_file` for
a URL with no cached thumbnail); it can only return a path when a thumbnail
index entry exists for the key. -/
theorem get_original_requires_thumbnail_entry (tm : TM) (fs : FS)
    (hid : String) (image_url : String) :
    (alookup tm.file_names hid = none →
      get_original_image_file_by_hash_id tm fs hid = .error "KeyError")
    ∧ (alookup tm.file_names (md5Hex image_url) = none →
      get_original_image_file tm fs image_url = .error "KeyError")
    ∧ (∀ p, get_original_image_file_by_hash_id tm fs hid = .ok p →
      (alookup tm.file_names hid).isSome = true) := by
  refine ⟨fun hh => ?_, fun hh => ?_, fun p hp => ?_⟩
  · unfold get_original_image_file_by_hash_id
    rw [hh]
  · unfold get_original_image_file get_original_image_file_by_hash_id
    rw [hh]
  · cases hl : alookup tm.file_names hid with
    | none =>
      unfold get_original_image_file_by_hash_id at hp
      rw [hl] at hp
      simp at hp
    | some fn => rfl

/-- Witness for C10 at an empty index. -/
theorem get_original_requires_thumbnail_entry_witness :
    get_original_image_file_by_hash_id tmFresh [] "k" = .error "KeyError"
    ∧ get_original_image_file tmFresh [] "u" = .error "KeyError" :=
  ⟨(get_original_requires_thumbnail_entry tmFresh [] "k" "u").1 rfl,
   (get_original_requires_thumbnail_entry tmFresh [] "k" "u").2.1 rfl⟩

/-- C4: `fetch_original_image` performs exactly one `urlopen`; the `wget`
fallback runs exactly once precisely when the response is HTTP 403, and any
other HTTP error, a timeout, a malformed URL (`ValueError`) or a `URLError`
returns `None` immediately, with no fallback and no filesystem change. -/
theorem fetch_fallback_403_only (tm : TM) (w : World) (fs : FS) (image_url : String) :
    ((fetch_original_image tm w fs image_url).wgets
        = if w.net image_url = .httpError 403 then 1 else 0)
    ∧ (fetch_original_image tm w fs image_url).urlopens = 1
    ∧ (nonFallbackFailure (w.net image_url) = true →
        (fetch_original_image tm w fs image_url).ret = .ok none
        ∧ (fetch_original_image tm w fs image_url).fs = fs) := by
  cases hn : w.net image_url with
  | success data =>
    have hc := saveImageData_counts tm fs (md5Hex image_url) data 1 0
    simp [fetch_original_image, hn, nonFallbackFailure, hc.1, hc.2]
  | httpError code =>
    by_cases hc : code = 403
    · subst hc
      cases hw : w.wget image_url with
      | none => simp [fetch_original_image, hn, hw, nonFallbackFailure]
      | some data =>
        have hcnt := saveImageData_counts tm
          (fsWrite fs (pathJoin TMP_DIR (md5Hex image_url)) data) (md5Hex image_url) data 1 1
        simp [fetch_original_image, hn, hw, nonFallbackFailure, hcnt.1, hcnt.2]
    · simp [fetch_original_image, hn, hc, nonFallbackFailure]
  | timeout => simp [fetch_original_image, hn, nonFallbackFailure]
  | valueError => simp [fetch_original_image, hn, nonFallbackFailure]
  | urlError => simp [fetch_original_image, hn, nonFallbackFailure]

/-- Witness for C4: HTTP 403 triggers one `wget`; HTTP 404 fails at once. -/
theorem fetch_fallback_403_only_witness :
    (fetch_original_image tmFresh w403 [] "u").wgets = 1
    ∧ nonFallbackFailure (w404.net "u") = true
    ∧ (fetch_original_image tmFresh w404 [] "u").ret = .ok none :=
  ⟨((fetch_fallback_403_only tmFresh w403 [] "u").1).trans (by decide),
   by decide,
   ((fetch_fallback_403_only tmFresh w404 [] "u").2.2 (by decide)).1⟩

/-- C7: with the cache directories created, initialization never raises for
any directory contents: unparseable names are excluded, so the index equals
the one built from only the parseable entries; a directory-creation failure
with a configured cache directory is the one condition that raises. -/
theorem init_skips_malformed_and_raises_only_on_mkdir
    (ts ms : Nat × Nat) (cd fc : String) (so : Bool) (tl ol : List String) :
    (∃ tm, initTM ts ms (some cd) so fc tl ol true = .ok tm
      ∧ tm.file_names = loadIndex3 (tl.filter fun f => (parse3 f).isSome)
      ∧ tm.original_file_names
          = (if so then loadIndex2 (ol.filter fun f => (parse2 f).isSome) else []))
    ∧ initTM ts ms (some cd) so fc tl ol false
        = .error "Exception: Error while creating cache directory"
    ∧ (∃ tm, initTM ts ms none so fc tl ol false = .ok tm) := by
  refine ⟨⟨_, rfl, ?_, ?_⟩, by simp [initTM], ⟨_, rfl⟩⟩
  · show (if (some (pathJoin cd THUMBNAILS_DIR)).isSome then loadIndex3 tl else []) = _
    simp [loadIndex3]
    exact foldl_indexStep3_filter tl []
  · show (if so && (some (pathJoin cd ORIGINALS_DIR)).isSome then loadIndex2 ol else []) = _
    cases so with
    | false => simp
    | true =>
      simp [loadIndex2]
      exact foldl_indexStep2_filter ol []

/-- C2 (amended): for an indexed key, `remove_thumbnail(url, keep_orig=False)`
deletes the thumbnail index entry, so `has_thumbnail` becomes `none`, but it
leaves `original_file_names` untouched — `has_original` is unchanged. -/
theorem remove_thumbnail_removes_thumbnail_only (tm : TM) (image_url td sz ex fn : String)
    (h1 : tm.thumbnails_dir = some td)
    (h2 : tm.originals_dir.isSome = true)
    (h3 : alookup tm.file_names (md5Hex image_url) = some fn)
    (h4 : parse3 fn = some (md5Hex image_url, sz, ex))
    (h5 : (tm.file_names.map Prod.fst).Nodup) :
    has_thumbnail (remove_thumbnail tm image_url false) image_url = .ok none
    ∧ (remove_thumbnail tm image_url false).original_file_names = tm.original_file_names
    ∧ (∀ u2, has_original (remove_thumbnail tm image_url false) u2 = has_original tm u2) := by
  obtain ⟨od, hod⟩ := Option.isSome_iff_exists.mp h2
  have hrm : remove_thumbnail tm image_url false
      = { tm with file_names := aerase tm.file_names (md5Hex image_url) } := by
    simp [remove_thumbnail, h3, h1, h4, hod]
  have hnone : alookup (aerase tm.file_names (md5Hex image_url)) (md5Hex image_url) = none :=
    alookup_aerase_self _ _ h5
  refine ⟨?_, ?_, ?_⟩
  · rw [hrm]
    simp [has_thumbnail, hnone]
  · rw [hrm]
  · intro u2
    rw [hrm]
    rfl

/-- Witness for C2 (amended) at the populated fixture `tmC2`. -/
theorem remove_thumbnail_removes_thumbnail_only_witness :
    has_thumbnail (remove_thumbnail tmC2 "u" false) "u" = .ok none
    ∧ (remove_thumbnail tmC2 "u" false).original_file_names = tmC2.original_file_names := by
  have h := remove_thumbnail_removes_thumbnail_only tmC2 "u" "/c/thumbnails" "400x400" "jpeg"
    "7b774effe4a349c6dd82ad4f4f21d34c.400x400.jpeg" rfl rfl (by decide) (by decide) (by decide)
  exact ⟨h.1, h.2.1⟩

/-- C3: when the fetched image is strictly below the configured minimum in
either dimension, `generate_thumbnail` returns `None`, `has_thumbnail` stays
false, and the fetched bytes are deleted without retention or kept as the
plain original `originals/<key>.<format>` with retention — never producing a
thumbnail file. -/
theorem min_size_gating (tm : TM) (w : World) (image_url : String) (data : Bytes) (img : Img)
    (td od : String)
    (h1 : tm.thumbnails_dir = some td)
    (h2 : tm.originals_dir = some od)
    (h3 : alookup tm.file_names (md5Hex image_url) = none)
    (h4 : alookup tm.original_file_names (md5Hex image_url) = none)
    (h5 : w.net image_url = .success data)
    (h6 : w.decode data = some img)
    (h7 : img.width < tm.min_image_size.1 ∨ img.height < tm.min_image_size.2) :
    (generate_thumbnail tm w [] image_url).ret = .ok none
    ∧ has_thumbnail tm image_url = .ok none
    ∧ (tm.save_original = false → (generate_thumbnail tm w [] image_url).fs = [])
    ∧ (tm.save_original = true →
        (generate_thumbnail tm w [] image_url).fs
          = [(pathJoin od (md5Hex image_url ++ "." ++ strToLower img.format), data)]) := by
  have hht : has_thumbnail tm image_url = .ok none := by simp [has_thumbnail, h3]
  have hho : has_original tm image_url = .ok none := by simp [has_original, h4]
  cases hs : tm.save_original with
  | false =>
    have hgen : generate_thumbnail tm w [] image_url
        = generateFrom tm w [(pathJoin TMP_DIR ("tmp_" ++ md5Hex image_url), data)] image_url
            false (pathJoin TMP_DIR ("tmp_" ++ md5Hex image_url)) 1 0 := by
      simp [generate_thumbnail, hht, hho, fetch_success_noRetain tm w [] image_url data h5 hs,
        ainsert]
    have hsmall := generateFrom_small_del tm w
      [(pathJoin TMP_DIR ("tmp_" ++ md5Hex image_url), data)] image_url
      (pathJoin TMP_DIR ("tmp_" ++ md5Hex image_url)) data img 1 0
      (by simp [alookup]) h6 h7 hs
    rw [hgen, hsmall]
    refine ⟨rfl, hht, fun _ => ?_, fun hc => Bool.noConfusion hc⟩
    simp [aerase]
  | true =>
    have hgen : generate_thumbnail tm w [] image_url
        = generateFrom tm w [(pathJoin od (md5Hex image_url), data)] image_url
            false (pathJoin od (md5Hex image_url)) 1 0 := by
      simp [generate_thumbnail, hht, hho, fetch_success_retain tm w [] image_url od data h5 hs h2,
        ainsert]
    have hsmall := generateFrom_small_rename tm w
      [(pathJoin od (md5Hex image_url), data)] image_url
      (pathJoin od (md5Hex image_url)) data img 1 0
      (by simp [alookup]) h6 h7 hs
    rw [hgen, hsmall]
    refine ⟨rfl, hht, fun hc => Bool.noConfusion hc, fun _ => ?_⟩
    rw [pathJoin_append, pathJoin_append]
    simp [aerase, ainsert]

/-- Witness for C3 with a 50x50 image against a 100x100 minimum. -/
theorem min_size_gating_witness :
    (generate_thumbnail tmMin wSmall [] "u").ret = .ok none
    ∧ (generate_thumbnail tmMin wSmall [] "u").fs = [] := by
  have h := min_size_gating tmMin wSmall "u" [7] { format := "JPEG", width := 50, height := 50 }
      "/c/thumbnails" "/c/originals" rfl rfl rfl rfl rfl rfl (Or.inl (by decide))
  exact ⟨h.1, h.2.2.1 rfl⟩

/-- C5: a successful generation writes exactly the thumbnail file
`<key>.<width>x<height>.<format>` under the thumbnails directory and returns
its path; re-initializing a manager over a directory listing containing that
file rebuilds the index so that `has_thumbnail` for the same URL returns the
same path again. -/
theorem index_reconstruction_roundtrip (tm : TM) (w : World) (image_url : String)
    (data : Bytes) (img : Img) (cd : String)
    (h1 : tm.thumbnails_dir = some (pathJoin cd THUMBNAILS_DIR))
    (h3 : alookup tm.file_names (md5Hex image_url) = none)
    (h4 : alookup tm.original_file_names (md5Hex image_url) = none)
    (h5 : w.net image_url = .success data)
    (h6 : w.decode data = some img)
    (hs : tm.save_original = false)
    (h7 : ¬(img.width < tm.min_image_size.1 ∨ img.height < tm.min_image_size.2))
    (h8 : dotFree (sizeStr tm))
    (h9 : dotFree (strToLower img.format)) :
    (generate_thumbnail tm w [] image_url).ret
        = .ok (some (pathJoin (pathJoin cd THUMBNAILS_DIR)
            (md5Hex image_url ++ "." ++ sizeStr tm ++ "." ++ strToLower img.format)))
    ∧ (generate_thumbnail tm w [] image_url).fs
        = [(pathJoin (pathJoin cd THUMBNAILS_DIR)
            (md5Hex image_url ++ "." ++ sizeStr tm ++ "." ++ strToLower img.format),
           w.transform data)]
    ∧ ∃ tm2,
        initTM tm.thumbnail_size tm.min_image_size (some cd) tm.save_original tm.fill_color
          [md5Hex image_url ++ "." ++ sizeStr tm ++ "." ++ strToLower img.format] [] true
          = .ok tm2
        ∧ has_thumbnail tm2 image_url
            = .ok (some (pathJoin (pathJoin cd THUMBNAILS_DIR)
                (md5Hex image_url ++ "." ++ sizeStr tm ++ "." ++ strToLower img.format))) := by
  have hht : has_thumbnail tm image_url = .ok none := by simp [has_thumbnail, h3]
  have hho : has_original tm image_url = .ok none := by simp [has_original, h4]
  have hfdf : dotFree (pathJoin TMP_DIR ("tmp_" ++ md5Hex image_url)) := by
    rw [pathJoin_tmp]
    exact dotFree_append _ _ (by decide)
      (dotFree_append _ _ (by decide) (md5Hex_dotFree image_url))
  have hmem : '.' ∈ (pathJoin (pathJoin cd THUMBNAILS_DIR)
      (md5Hex image_url ++ "." ++ sizeStr tm ++ "." ++ strToLower img.format)).data :=
    mem_dot_pathJoin _ _ (mem_dot_cat3 _ _ _)
  have hne : pathJoin (pathJoin cd THUMBNAILS_DIR)
      (md5Hex image_url ++ "." ++ sizeStr tm ++ "." ++ strToLower img.format)
      ≠ pathJoin TMP_DIR ("tmp_" ++ md5Hex image_url) :=
    (ne_of_dotFree_mem _ _ hfdf hmem).symm
  have hgen : generate_thumbnail tm w [] image_url
      = generateFrom tm w [(pathJoin TMP_DIR ("tmp_" ++ md5Hex image_url), data)] image_url
          false (pathJoin TMP_DIR ("tmp_" ++ md5Hex image_url)) 1 0 := by
    simp [generate_thumbnail, hht, hho, fetch_success_noRetain tm w [] image_url data h5 hs,
      ainsert]
  have hok := generateFrom_ok_cache tm w
    [(pathJoin TMP_DIR ("tmp_" ++ md5Hex image_url), data)] image_url
    (pathJoin TMP_DIR ("tmp_" ++ md5Hex image_url)) (pathJoin cd THUMBNAILS_DIR) data img 1 0
    (by simp [alookup]) h6 h7 hs h1 hne
  have hp3 : parse3 (md5Hex image_url ++ "." ++ sizeStr tm ++ "." ++ strToLower img.format)
      = some (md5Hex image_url, sizeStr tm, strToLower img.format) :=
    parse3_cat3 _ _ _ (md5Hex_dotFree image_url) h8 h9
  refine ⟨?_, ?_, ?_⟩
  · rw [hgen, hok]
  · rw [hgen, hok]
    simp [ainsert, aerase, Ne.symm hne]
  · refine ⟨_, rfl, ?_⟩
    show has_thumbnail
      { thumbnail_size := tm.thumbnail_size, min_image_size := tm.min_image_size
        save_original := tm.save_original, fill_color := tm.fill_color
        thumbnails_dir := some (pathJoin cd THUMBNAILS_DIR)
        originals_dir := some (pathJoin cd ORIGINALS_DIR)
        file_names := loadIndex3
          [md5Hex image_url ++ "." ++ sizeStr tm ++ "." ++ strToLower img.format]
        original_file_names :=
          if tm.save_original && true then loadIndex2 [] else [] } image_url = _
    have hidx : loadIndex3
        [md5Hex image_url ++ "." ++ sizeStr tm ++ "." ++ strToLower img.format]
        = [(md5Hex image_url,
            md5Hex image_url ++ "." ++ sizeStr tm ++ "." ++ strToLower img.format)] := by
      simp [loadIndex3, indexStep3, hp3, ainsert]
    simp [has_thumbnail, hidx, alookup]

/-- Witness for C5: generate for `"u"`, re-init from the written file name,
look the thumbnail up again. -/
theorem index_reconstruction_roundtrip_witness :
    (generate_thumbnail tmFresh wOk [] "u").ret
      = .ok (some "/c/thumbnails/7b774effe4a349c6dd82ad4f4f21d34c.400x400.jpeg")
    ∧ ∃ tm2, initTM (400, 400) (0, 0) (some "/c") false "#ffffff"
          ["7b774effe4a349c6dd82ad4f4f21d34c.400x400.jpeg"] [] true = .ok tm2
        ∧ has_thumbnail tm2 "u"
          = .ok (some "/c/thumbnails/7b774effe4a349c6dd82ad4f4f21d34c.400x400.jpeg") := by
  have h := index_reconstruction_roundtrip tmFresh wOk "u" [7]
    { format := "JPEG", width := 600, height := 600 } "/c"
    (by decide) rfl rfl rfl rfl rfl (by decide) (by decide) (by decide)
  exact ⟨h.1, h.2.2⟩

/-- C8 (counterexample): with no cache directory but retention enabled, a
fetch does not return a scratch path — `os.path.join(None, hash_id)` raises a
`TypeError` out of `generate_thumbnail`, contradicting the claim for "any
retention setting". -/
theorem no_cache_retention_raises_cex :
    initTM (400, 400) (0, 0) none true "#ffffff" [] [] true = .ok tmNoCacheSave
    ∧ (generate_thumbnail tmNoCacheSave wOk [] "u").ret = .error "TypeError" := by
  decide

/-- C8 (amended): with no cache directory and originals not retained, every
call re-fetches (one `urlopen` regardless of the starting filesystem), writes
only the scratch original `/tmp/tmp_<key>` and the scratch thumbnail
`/tmp/<key>.<WxH>.<format>`, and returns that scratch thumbnail path. -/
theorem no_cache_dir_scratch_generation (tm : TM) (w : World) (fs : FS) (image_url : String)
    (data : Bytes) (img : Img)
    (h0 : tm.thumbnails_dir = none)
    (hfn : tm.file_names = [])
    (hofn : tm.original_file_names = [])
    (hs : tm.save_original = false)
    (h5 : w.net image_url = .success data)
    (h6 : w.decode data = some img)
    (h7 : ¬(img.width < tm.min_image_size.1 ∨ img.height < tm.min_image_size.2)) :
    (generate_thumbnail tm w fs image_url).ret
        = .ok (some (pathJoin TMP_DIR
            (md5Hex image_url ++ "." ++ sizeStr tm ++ "." ++ strToLower img.format)))
    ∧ (generate_thumbnail tm w fs image_url).urlopens = 1
    ∧ (generate_thumbnail tm w fs image_url).fs
        = fsWrite (fsWrite fs (pathJoin TMP_DIR ("tmp_" ++ md5Hex image_url)) data)
            (pathJoin TMP_DIR
              (md5Hex image_url ++ "." ++ sizeStr tm ++ "." ++ strToLower img.format))
            (w.transform data) := by
  have hht : has_thumbnail tm image_url = .ok none := by simp [has_thumbnail, hfn, alookup]
  have hho : has_original tm image_url = .ok none := by simp [has_original, hofn, alookup]
  have hgen : generate_thumbnail tm w fs image_url
      = generateFrom tm w (ainsert fs (pathJoin TMP_DIR ("tmp_" ++ md5Hex image_url)) data)
          image_url false (pathJoin TMP_DIR ("tmp_" ++ md5Hex image_url)) 1 0 := by
    simp [generate_thumbnail, hht, hho, fetch_success_noRetain tm w fs image_url data h5 hs]
  have hok := generateFrom_ok_nocache tm w
    (ainsert fs (pathJoin TMP_DIR ("tmp_" ++ md5Hex image_url)) data) image_url
    (pathJoin TMP_DIR ("tmp_" ++ md5Hex image_url)) data img 1 0
    (alookup_ainsert_self fs _ data) h6 h7 h0
  rw [hgen, hok]
  exact ⟨rfl, rfl, rfl⟩

/-- Witness for C8 (amended) at the cacheless fixture. -/
theorem no_cache_dir_scratch_generation_witness :
    (generate_thumbnail tmNoCache wOk [] "u").ret
      = .ok (some "/tmp/7b774effe4a349c6dd82ad4f4f21d34c.400x400.jpeg")
    ∧ (generate_thumbnail tmNoCache wOk [] "u").urlopens = 1 := by
  have h := no_cache_dir_scratch_generation tmNoCache wOk [] "u" [7]
    { format := "JPEG", width := 600, height := 600 } rfl rfl rfl rfl rfl rfl (by decide)
  exact ⟨h.1, h.2.1⟩

end ThumbnailManager
